import Mathlib

/-!
Shallow embedding of `cargui19.py` (Car Log Uploader).

The browser page is modelled by an explicit environment (`PageEnv`) that
records, for each logical field, whether its element can be located, whether
its Chosen search input can be found, and the state of its dropdown results
lists.  Python exceptions are modelled with `Except PyErr`; a Python `dict`
is an association list in insertion order (`List.lookup` finds the first
binding, as `dict` lookup does for the unique-key dicts used here).
-/

namespace CarLog

/-- `d.get(k, dflt)` on a Python dict. -/
def pyDictGet (d : List (String × String)) (k : String) (dflt : String) : String :=
  match d.lookup k with
  | some v => v
  | none => dflt

/-- Does `hay` start with `needle` (character-wise)? -/
def charsStartWith : List Char → List Char → Bool
  | [], _ => true
  | _ :: _, [] => false
  | c :: cs, d :: ds => c == d && charsStartWith cs ds

/-- Does `hay` contain `needle` as a contiguous run?  Empty `needle` is
always contained, matching Python substring semantics. -/
def charsContain : List Char → List Char → Bool
  | hay, [] =>
    -- Python: "" in s is always True
    (fun _ => true) hay
  | [], _ :: _ => false
  | c :: hs, needle => charsStartWith needle (c :: hs) || charsContain hs needle

/-- Python `needle in hay` on strings. -/
def pyIn (needle hay : String) : Bool :=
  charsContain hay.toList needle.toList

/-- Python `s.strip()`: drop whitespace from both ends. -/
def pyStrip (s : String) : String :=
  ⟨((s.data.dropWhile Char.isWhitespace).reverse.dropWhile
      Char.isWhitespace).reverse⟩

/-- Python `s.lower()` (the inputs here are ASCII). -/
def pyLower (s : String) : String := ⟨s.data.map Char.toLower⟩

/-- `item.text.strip().lower()` — the normalisation applied to each dropdown
option text (cargui19.py lines 273-274) and to the request (line 255). -/
def normOpt (s : String) : String := pyLower (pyStrip s)

/-- Python exceptions that can escape the embedded functions. -/
inductive PyErr where
  | nameError (n : String)
  | timeout (msg : String)
  | attributeError (msg : String)
  | generic (msg : String)
deriving Repr, DecidableEq

/-- `str(e)` for the exceptions we model. -/
def pyStr : PyErr → String
  | .nameError n => "name " ++ n ++ " is not defined"
  | .timeout m => m
  | .attributeError m => m
  | .generic m => m

/-- One `ul.chzn-results` element: whether it is displayed and the texts of
its `li.active-result` children. -/
structure ResultsList where
  displayed : Bool
  items : List String
deriving Repr, DecidableEq

/-- The matching loop of `type_and_select_connection_option`
(cargui19.py lines 268-283): scan the option texts, breaking at the first
case-insensitive exact match (`best`); remember the first substring match
(`partMatch`, set only while it `is None`). -/
def scanLoop (target : String) : List String → Option String → Option String →
    Option String × Option String
  | [], best, partMatch => (best, partMatch)
  | item :: rest, best, partMatch =>
    if normOpt item == target then
      -- best_match = item; break
      (some item, partMatch)
    else if pyIn target (normOpt item) && partMatch.isNone then
      scanLoop target rest best (some item)
    else
      scanLoop target rest best partMatch

/-- Lines 268-305: given the (non-empty, by the caller's guard) option texts
of one displayed results list, pick `best or partMatch or first` and return
the clicked option's `.text.strip()`. -/
def processResultsList (items : List String) (text : String) : Option String :=
  match items with
  | [] => none        -- unreachable: the caller skips empty lists (line 263)
  | first :: _ =>
    let target := pyLower (pyStrip text)
    let (best, partMatch) := scanLoop target items none none
    match best.orElse (fun _ => partMatch) with
    | some it => some (pyStrip it)
    | none => some (pyStrip first)

/-- `type_and_select_connection_option` (cargui19.py lines 216-323), with the
page's results lists supplied by the environment.  Walks the `ul.chzn-results`
elements, skipping non-displayed or empty ones; the first displayed non-empty
one is processed and its selection returned.  If none qualifies, the keyboard
navigation fallback (lines 311-318) runs and the function returns the typed
`text` as its guess. -/
def type_and_select_connection_option : List ResultsList → String → Option String
  | [], text => some text
  | rl :: rest, text =>
    if rl.displayed = false then
      type_and_select_connection_option rest text
    else if rl.items.isEmpty then
      type_and_select_connection_option rest text
    else
      processResultsList rl.items text

/-- The fixed field set (cargui19.py `EXCEL_COLUMNS`, lines 40-43; also the
iteration order of `excel_to_form_map` in `fill_all_fields_for_trip`). -/
def EXCEL_COLUMNS : List String :=
  ["Department", "Plate", "Date", "Start_Time", "Start_Mileage",
   "End_Time", "End_Mileage", "Destination", "Driver"]

/-- The connection (Chosen dropdown) fields. -/
def CONNECTION_FIELDS : List String := ["Department", "Plate", "Driver"]

/-- State of the live page and webdriver for one trip, as the embedded
functions observe it. -/
structure PageEnv where
  /-- the Plate locator matches in the main document (`find_form_context`) -/
  plateInMain : Bool
  /-- for each embedded iframe, whether the Plate locator matches inside it;
  unreachable by the code: line 457 iterates the undefined name `frames` -/
  iframePlate : List Bool
  /-- the field's element is located within its `WebDriverWait` timeout -/
  fieldPresent : String → Bool
  /-- `get_connection_input` finds a search input inside the container -/
  searchInputFound : String → Bool
  /-- `clear`/`send_keys` on a standard input field does not throw -/
  stdFillOk : String → Bool
  /-- the `ul.chzn-results` elements under the field's container -/
  dropdown : String → List ResultsList
  /-- `find_submit_button` locates a submit control (main page or iframe) -/
  submitButtonFound : Bool
  /-- clicking the submit control succeeds (native or scripted) -/
  submitClickOk : Bool
  /-- a `.kn-message.success` element appears (main page or iframe) -/
  successIndicator : Bool
  /-- `click_reload_form_button` finds a displayed reload/new-entry control -/
  reloadButtonFound : Bool
  /-- clicking the reload control succeeds (native or scripted) -/
  reloadClickOk : Bool

/-- `fill_connection_field` (cargui19.py lines 326-353): strip the value,
give up on an empty string or a missing search input, else type and select. -/
def fill_connection_field (env : PageEnv) (fieldLabel value : String) :
    Option String :=
  let text := pyStrip value
  if text = "" then none
  else if env.searchInputFound fieldLabel = false then none
  else type_and_select_connection_option (env.dropdown fieldLabel) text

/-- The dead cleanup loop at the end of `fill_all_fields_for_trip`
(lines 555-557): add a default entry for any field key still absent. -/
def fillCleanup (trip : List (String × String)) (acc : List (String × String)) :
    List (String × String) :=
  EXCEL_COLUMNS.foldl
    (fun a k => if (a.lookup k).isSome then a else a ++ [(k, pyDictGet trip k "N/A")])
    acc

/-- The per-field loop of `fill_all_fields_for_trip` (lines 495-551):
empty value → record "N/A (Skipped)" and continue; locate timeout → return
None; connection-field selection failure → raise, caught at 548 → None;
standard-field fill fault → caught at 548 → None. -/
def fillFieldsLoop (env : PageEnv) (trip : List (String × String)) :
    List String → List (String × String) → Option (List (String × String))
  | [], acc => some (fillCleanup trip acc)
  | f :: rest, acc =>
    let value := pyDictGet trip f ""
    if value = "" then
      fillFieldsLoop env trip rest (acc ++ [(f, "N/A (Skipped)")])
    else if env.fieldPresent f = false then
      none
    else if CONNECTION_FIELDS.contains f then
      match fill_connection_field env f value with
      | some t => fillFieldsLoop env trip rest (acc ++ [(f, t)])
      | none => none
    else if env.stdFillOk f then
      fillFieldsLoop env trip rest (acc ++ [(f, value)])
    else
      none

/-- `fill_all_fields_for_trip` (cargui19.py lines 470-559). -/
def fill_all_fields_for_trip (env : PageEnv) (trip : List (String × String)) :
    Option (List (String × String)) :=
  fillFieldsLoop env trip EXCEL_COLUMNS []

/-- `find_form_context` (cargui19.py lines 445-467).  When the Plate locator
does not match in the main document, line 456 binds `iframes` but line 457
iterates the undefined name `frames`, so a `NameError` is raised before any
iframe is inspected (`env.iframePlate` is never consulted). -/
def find_form_context (env : PageEnv) : Except PyErr Bool :=
  if env.plateInMain then .ok true
  else .error (.nameError "frames")

/-- `wait_for_success_message` (lines 404-428): whether a success indicator
is present in the main page or any iframe. -/
def wait_for_success_message (env : PageEnv) : Bool :=
  env.successIndicator

/-- `click_submit_and_wait_success` (lines 431-439): raise TimeoutException
if no submit button is found anywhere; click it (native, then scripted — an
uncaught fault if both fail, line 401); call `wait_for_success_message` and
discard its result. -/
def click_submit_and_wait_success (env : PageEnv) : Except PyErr Unit :=
  if env.submitButtonFound = false then
    .error (.timeout "Could not locate Submit button")
  else if env.submitClickOk = false then
    .error (.generic "submit click failed")
  else
    let _ := wait_for_success_message env
    .ok ()

/-- `click_reload_form_button` (lines 562-621): False if no displayed reload
control is found or it cannot be clicked, True otherwise. -/
def click_reload_form_button (env : PageEnv) : Bool :=
  env.reloadButtonFound && env.reloadClickOk

/-- The header row written by `initialize_log` (cargui19.py lines 71-91). -/
def OUTPUT_HEADER : List String :=
  ["Timestamp", "Status", "Error Message",
   "Department (Excel Input)", "Department (Actual Selected)",
   "Plate (Excel Input)", "Plate (Actual Selected)",
   "Date", "Start Time", "Start Odometer", "End Time", "End Odometer",
   "Destination",
   "Driver (Excel Input)", "Driver (Actual Selected)"]

/-- `initialize_log` (lines 65-91): write the header row only when the log
file does not exist (`none`); an existing file is left untouched. -/
def init_log (fileContents : Option (List (List String))) : List (List String) :=
  match fileContents with
  | none => [OUTPUT_HEADER]
  | some rows => rows


/-- `log_submission` (cargui19.py lines 94-123).  `trip_data_selected` is
`None` exactly when `fill_all_fields_for_trip` returned `None` (line 639);
in that case `trip_data_selected.get(...)` at line 110 raises
AttributeError before any row is written. -/
def log_submission (excel : List (String × String))
    (selected : Option (List (String × String)))
    (status errMsg ts : String) : Except PyErr (List String) :=
  match selected with
  | none => .error (.attributeError "NoneType object has no attribute get")
  | some sel =>
    .ok [ts, status, errMsg,
      pyDictGet excel "Department" "N/A",
      pyDictGet sel "Department" (pyDictGet excel "Department" "N/A"),
      pyDictGet excel "Plate" "N/A",
      pyDictGet sel "Plate" (pyDictGet excel "Plate" "N/A"),
      pyDictGet excel "Date" "N/A",
      pyDictGet excel "Start_Time" "N/A",
      pyDictGet excel "Start_Mileage" "N/A",
      pyDictGet excel "End_Time" "N/A",
      pyDictGet excel "End_Mileage" "N/A",
      pyDictGet excel "Destination" "N/A",
      pyDictGet excel "Driver" "N/A",
      pyDictGet sel "Driver" (pyDictGet excel "Driver" "N/A")]

/-- Observable driver actions we count: an invocation of
`click_reload_form_button` (line 656) and a full-page navigation
`driver.get(WEBSITE_URL)` (lines 659 and 671). -/
inductive Event where
  | reloadCall
  | navigate
deriving Repr, DecidableEq

/-- The `try`/`except` body of `fill_and_submit_trip` (lines 634-676):
returns (success flag, the `selected_values` binding at exit, error message,
driver events).  Note `selected_values` is rebound to the result of
`fill_all_fields_for_trip` (line 639), so it is `none` when the fill stage
fails. -/
def tripBody (env : PageEnv) (trip : List (String × String)) (isLast : Bool) :
    Bool × Option (List (String × String)) × String × List Event :=
  match find_form_context env with
  | .error e => (false, some [], pyStr e, [Event.navigate])
  | .ok false => (false, some [], "Could not locate form fields", [Event.navigate])
  | .ok true =>
    match fill_all_fields_for_trip env trip with
    | none =>
      (false, none, "Form field filling failed. See console warnings.",
        [Event.navigate])
    | some sel =>
      match click_submit_and_wait_success env with
      | .error e => (false, some sel, pyStr e, [Event.navigate])
      | .ok _ =>
        if isLast then (true, some sel, "", [])
        else if click_reload_form_button env then
          (true, some sel, "", [Event.reloadCall])
        else
          (true, some sel, "", [Event.reloadCall, Event.navigate])

instance {ε α : Type} [DecidableEq ε] [DecidableEq α] :
    DecidableEq (Except ε α)
  | .error e, .error f =>
    if h : e = f then .isTrue (by rw [h])
    else .isFalse (fun hh => h (by injection hh))
  | .error _, .ok _ => .isFalse (fun hh => Except.noConfusion hh)
  | .ok _, .error _ => .isFalse (fun hh => Except.noConfusion hh)
  | .ok a, .ok b =>
    if h : a = b then .isTrue (by rw [h])
    else .isFalse (fun hh => h (by injection hh))

/-- Net effect of one `fill_and_submit_trip` call. -/
structure TripOutcome where
  /-- the returned boolean, or the exception escaping the call -/
  result : Except PyErr Bool
  /-- ledger rows appended by this call -/
  rows : List (List String)
  /-- driver events -/
  events : List Event
deriving Repr, DecidableEq

/-- `fill_and_submit_trip` (cargui19.py lines 624-685): run the body, then
the `finally` block appends exactly one ledger row via `log_submission` —
unless `log_submission` itself raises, in which case no row is written and
the exception replaces the in-flight return value. -/
def fill_and_submit_trip (env : PageEnv) (trip : List (String × String))
    (ts : String) (isLast : Bool) : TripOutcome :=
  match tripBody env trip isLast with
  | (succ, sv, msg, evs) =>
    match log_submission trip sv (if succ then "SUCCESS" else "FAILED") msg ts with
    | .ok row => ⟨.ok succ, [row], evs⟩
    | .error e => ⟨.error e, [], evs⟩

/-- Net effect of `run_automation`'s trip loop. -/
structure RunResult where
  /-- number of trips for which `fill_and_submit_trip` was invoked -/
  processed : Nat
  /-- `success_count` -/
  successCount : Nat
  /-- ledger rows appended -/
  ledger : List (List String)
  /-- driver events -/
  events : List Event
  /-- an exception escaped the loop into `run_automation`'s handler -/
  errored : Bool
deriving Repr, DecidableEq

/-- The trip loop of `CarLogUploader.run_automation` (lines 895-911):
`is_last = (i == total_trips - 1)`; an exception escaping
`fill_and_submit_trip` is caught by `run_automation`'s outer handler
(line 921), so the remaining trips are not processed. -/
def runLoop (ts : String) : List (PageEnv × List (String × String)) → RunResult
  | [] => ⟨0, 0, [], [], false⟩
  | p :: rest =>
    let o := fill_and_submit_trip p.1 p.2 ts rest.isEmpty
    match o.result with
    | .error _ => ⟨1, 0, o.rows, o.events, true⟩
    | .ok b =>
      let r := runLoop ts rest
      ⟨1 + r.processed, (if b then 1 else 0) + r.successCount,
        o.rows ++ r.ledger, o.events ++ r.events, r.errored⟩

/-- `run_automation` at the ledger level: `initialize_log` then the trip
loop, appending its rows to whatever the log file already held. -/
def run_automation (prior : Option (List (List String))) (ts : String)
    (ps : List (PageEnv × List (String × String))) : RunResult :=
  let r := runLoop ts ps
  { r with ledger := init_log prior ++ r.ledger }

/-- Errors `load_and_clean_data` can raise. -/
inductive LoadErr where
  | fileNotFound
  | readError
  | missingColumns (cols : List String)
deriving Repr, DecidableEq

/-- The input spreadsheet/CSV as `load_and_clean_data` observes it: whether
the path exists, whether pandas can parse the file, the column names, and
the cell values (`none` = NaN / missing cell). -/
structure RawFile where
  fileExists : Bool
  readable : Bool
  cols : List String
  rows : List (List (Option String))

/-- `str(col).lower().replace(' ', '_')` (cargui19.py lines 140-142). -/
def normCol (s : String) : String :=
  ⟨(pyLower s).data.map (fun c => if c == ' ' then '_' else c)⟩

/-- The `col_map` construction (lines 138-145): for each standard column the
first file column whose normalisation matches is mapped to it. -/
def buildColMap (cols : List String) : List (String × String) :=
  EXCEL_COLUMNS.foldl
    (fun m std =>
      match cols.find? (fun c => normCol c == normCol std) with
      | some c => m ++ [(c, std)]
      | none => m)
    []

/-- Column names after `df.rename(columns=col_map)` (line 147). -/
def renamedCols (f : RawFile) : List String :=
  f.cols.map (fun c => ((buildColMap f.cols).lookup c).getD c)

/-- The `missing_cols` check (line 149). -/
def missingCols (f : RawFile) : List String :=
  EXCEL_COLUMNS.filter (fun s => !(renamedCols f).contains s)

/-- The Date coercion plus `fillna('')` (lines 153-154), per cell.  `parse`
abstracts `pd.to_datetime(..., errors='coerce').dt.strftime('%m/%d/%Y')`:
`none` means the value coerced to NaT, which `fillna` turns into `""`. -/
def cleanCell (parse : String → Option String) (colName : String)
    (cell : Option String) : String :=
  if colName = "Date" then (cell.bind parse).getD "" else cell.getD ""

/-- `load_and_clean_data` (cargui19.py lines 126-156). -/
def load_and_clean_data (parse : String → Option String) (f : RawFile) :
    Except LoadErr (List (List (String × String))) :=
  if f.fileExists = false then .error .fileNotFound
  else if f.readable = false then .error .readError
  else if missingCols f ≠ [] then .error (.missingColumns (missingCols f))
  else
    .ok (f.rows.map (fun row =>
      ((renamedCols f).zip row).map (fun p => (p.1, cleanCell parse p.1 p.2))))

/-! ### Concrete sample inputs used by witnesses and counterexamples -/

/-- A trip record with every field populated. -/
def sampleTrip : List (String × String) :=
  [("Department", "IT"), ("Plate", "ABC 123"), ("Date", "01/02/2025"),
   ("Start_Time", "8:00"), ("Start_Mileage", "100"), ("End_Time", "9:00"),
   ("End_Mileage", "120"), ("Destination", "Campus"), ("Driver", "Anka")]

/-- A trip record whose Destination is empty. -/
def sampleTripNoDestInput : List (String × String) :=
  [("Department", "IT"), ("Plate", "ABC 123"), ("Date", "01/02/2025"),
   ("Start_Time", "8:00"), ("Start_Mileage", "100"), ("End_Time", "9:00"),
   ("End_Mileage", "120"), ("Destination", ""), ("Driver", "Anka")]

/-- The fill outcome for `sampleTripNoDestInput` on `happyEnv`. -/
def sampleTripNoDest : List (String × String) :=
  [("Department", "IT"), ("Plate", "ABC 123"), ("Date", "01/02/2025"),
   ("Start_Time", "8:00"), ("Start_Mileage", "100"), ("End_Time", "9:00"),
   ("End_Mileage", "120"), ("Destination", "N/A (Skipped)"), ("Driver", "Anka")]

/-- A page on which everything works: the plate field is in the main page,
all fields present, each connection dropdown shows exactly the requested
option, submit and reload controls are found and clickable.  The success
indicator is absent. -/
def happyEnv : PageEnv where
  plateInMain := true
  iframePlate := []
  fieldPresent := fun _ => true
  searchInputFound := fun _ => true
  stdFillOk := fun _ => true
  dropdown := fun f =>
    if f = "Department" then [⟨true, ["IT"]⟩]
    else if f = "Plate" then [⟨true, ["ABC 123"]⟩]
    else [⟨true, ["Anka"]⟩]
  submitButtonFound := true
  submitClickOk := true
  successIndicator := false
  reloadButtonFound := true
  reloadClickOk := true

/-- Same page but the Department field never becomes locatable, so
`fill_all_fields_for_trip` times out and returns `None`. -/
def envFillFail : PageEnv :=
  { happyEnv with fieldPresent := fun f => !(f == "Department") }

/-- Same page but no submit control exists anywhere. -/
def envSubmitFail : PageEnv :=
  { happyEnv with submitButtonFound := false }

/-- A page whose plate field lives only inside the first iframe. -/
def envIframe : PageEnv :=
  { happyEnv with plateInMain := false, iframePlate := [true] }

/-- A page whose connection dropdowns are displayed but contain no options. -/
def envZeroOpts : PageEnv :=
  { happyEnv with dropdown := fun _ => [⟨true, []⟩] }

/-! ### Lemmas about the option matcher -/

theorem scanLoop_fst (target : String) :
    ∀ (items : List String) (pm : Option String),
      (scanLoop target items none pm).1
        = items.find? (fun x => normOpt x == target) := by
  intro items
  induction items with
  | nil => intro pm; simp [scanLoop]
  | cons a l ih =>
    intro pm
    cases h : (normOpt a == target) with
    | true => simp [scanLoop, h, List.find?_cons_of_pos, h]
    | false =>
      rw [List.find?_cons_of_neg _ (by simp [h])]
      cases h2 : (pyIn target (normOpt a) && pm.isNone) with
      | true => simp only [scanLoop, h, h2, if_false, if_true]; exact ih _
      | false => simp only [scanLoop, h, h2, if_false]; exact ih _

theorem scanLoop_snd (target : String) :
    ∀ (items : List String),
      items.find? (fun x => normOpt x == target) = none →
      ∀ (pm : Option String),
        (scanLoop target items none pm).2
          = pm.orElse (fun _ => items.find? (fun x => pyIn target (normOpt x))) := by
  intro items
  induction items with
  | nil => intro _ pm; cases pm <;> simp [scanLoop, Option.orElse]
  | cons a l ih =>
    intro hnone pm
    have hae : (normOpt a == target) = false := by
      by_contra hc
      rw [List.find?_cons_of_pos _ (by simpa using hc)] at hnone
      exact Option.noConfusion hnone
    have hlnone : l.find? (fun x => normOpt x == target) = none := by
      rwa [List.find?_cons_of_neg _ (by simp [hae])] at hnone
    cases pm with
    | some y =>
      have hstep : scanLoop target (a :: l) none (some y)
          = scanLoop target l none (some y) := by
        simp [scanLoop, hae]
      rw [hstep, ih hlnone]
      simp [Option.orElse]
    | none =>
      cases hpa : pyIn target (normOpt a) with
      | true =>
        have hstep : scanLoop target (a :: l) none none
            = scanLoop target l none (some a) := by
          simp [scanLoop, hae, hpa]
        rw [hstep, ih hlnone, List.find?_cons_of_pos _ (by simpa using hpa)]
        simp [Option.orElse]
      | false =>
        have hstep : scanLoop target (a :: l) none none
            = scanLoop target l none none := by
          simp [scanLoop, hae, hpa]
        rw [hstep, ih hlnone, List.find?_cons_of_neg _ (by simp [hpa])]

theorem processResultsList_eq (items : List String) (text : String) :
    items ≠ [] →
    processResultsList items text
      = (match items.find? (fun x => normOpt x == pyLower (pyStrip text)) with
         | some o => some (pyStrip o)
         | none =>
           match items.find? (fun x => pyIn (pyLower (pyStrip text)) (normOpt x)) with
           | some o => some (pyStrip o)
           | none => items.head?.map (fun o => pyStrip o)) := by
  intro hne
  match items with
  | first :: rest =>
    show (match (scanLoop (pyLower (pyStrip text)) (first :: rest) none none).1.orElse
            (fun _ => (scanLoop (pyLower (pyStrip text)) (first :: rest) none none).2) with
          | some it => some (pyStrip it)
          | none => some (pyStrip first)) = _
    rw [scanLoop_fst]
    cases he : (first :: rest).find? (fun x => normOpt x == pyLower (pyStrip text)) with
    | some o => simp [Option.orElse]
    | none =>
      rw [scanLoop_snd _ _ he]
      cases hp : (first :: rest).find? (fun x => pyIn (pyLower (pyStrip text)) (normOpt x)) with
      | some o => simp [Option.orElse]
      | none => simp [Option.orElse]

theorem type_and_select_single (options : List String) (text : String)
    (hne : options ≠ []) :
    type_and_select_connection_option [⟨true, options⟩] text
      = processResultsList options text := by
  have : options.isEmpty = false := by
    cases options with
    | nil => exact absurd rfl hne
    | cons a l => rfl
  simp [type_and_select_connection_option, this]

/-- C3: for every non-empty list of dropdown option texts and every requested
value, the resolver selects by the priority exact > substring > first: the
first case-insensitive exact match (after trimming) wins; otherwise the first
option containing the request case-insensitively wins; otherwise the first
option is selected.  In particular, for options
["Acme East", "Acme East Annex", "Beta Co"] and request "Acme East" the
selection is "Acme East", never "Acme East Annex". -/
theorem resolver_match_priority (options : List String) (text : String)
    (hne : options ≠ []) :
    (∀ o, options.find? (fun x => normOpt x == pyLower (pyStrip text)) = some o →
      type_and_select_connection_option [⟨true, options⟩] text = some (pyStrip o)) ∧
    (options.find? (fun x => normOpt x == pyLower (pyStrip text)) = none →
      ∀ o, options.find? (fun x => pyIn (pyLower (pyStrip text)) (normOpt x)) = some o →
      type_and_select_connection_option [⟨true, options⟩] text = some (pyStrip o)) ∧
    (options.find? (fun x => normOpt x == pyLower (pyStrip text)) = none →
      options.find? (fun x => pyIn (pyLower (pyStrip text)) (normOpt x)) = none →
      ∀ o, options.head? = some o →
      type_and_select_connection_option [⟨true, options⟩] text = some (pyStrip o)) ∧
    type_and_select_connection_option
        [⟨true, ["Acme East", "Acme East Annex", "Beta Co"]⟩] "Acme East"
      = some "Acme East" := by
  rw [type_and_select_single options text hne, processResultsList_eq options text hne]
  refine ⟨?_, ?_, ?_, by decide⟩
  · intro o ho; rw [ho]
  · intro he o hp; rw [he, hp]
  · intro he hp o hh; rw [he, hp, hh]; rfl

/-- C3 witness: the priority theorem applied to the options
["Ford F-150", "Ford F-150 Spare"] and request " ford f-150 ": the exact
match (case-insensitive, trimmed) is selected. -/
theorem resolver_match_priority_witness :
    type_and_select_connection_option
        [⟨true, ["Ford F-150", "Ford F-150 Spare"]⟩] " ford f-150 "
      = some "Ford F-150" :=
  (resolver_match_priority ["Ford F-150", "Ford F-150 Spare"] " ford f-150 "
      (by decide)).1 "Ford F-150" (by decide)

/-- C4 counterexample: with a displayed dropdown holding zero options, the
resolver does not report failure — the keyboard fallback returns the typed
text as a selection (cargui19.py lines 311-318) — and the Form Filler does
not abort the fill (the trip proceeds with guessed selections). -/
theorem zero_options_no_failure_counterexample :
    type_and_select_connection_option [⟨true, ([] : List String)⟩] "Acme East"
        = some "Acme East" ∧
    fill_all_fields_for_trip envZeroOpts sampleTrip ≠ none := by
  constructor
  · rfl
  · decide

/-- C4 amended: whenever every results list is hidden or empty (in
particular when the dropdown yields zero options), the resolver falls back
to keyboard navigation and reports the typed text as its selection — it
does not return the failure signal `none`. -/
theorem zero_options_keyboard_fallback (rls : List ResultsList) (text : String)
    (h : ∀ rl ∈ rls, rl.displayed = false ∨ rl.items = []) :
    type_and_select_connection_option rls text = some text := by
  induction rls with
  | nil => rfl
  | cons rl rest ih =>
    have hrest : ∀ r ∈ rest, r.displayed = false ∨ r.items = [] :=
      fun r hr => h r (List.mem_cons_of_mem _ hr)
    rcases h rl (List.mem_cons_self _ _) with hd | hi
    · simp only [type_and_select_connection_option, hd]
      simpa using ih hrest
    · have : rl.items.isEmpty = true := by simp [hi]
      simp only [type_and_select_connection_option, this]
      cases hdisp : rl.displayed with
      | false => simpa using ih hrest
      | true => simpa [hdisp] using ih hrest

/-- C4 amended witness: one hidden results list and one displayed-but-empty
one; the resolver reports the typed text. -/
theorem zero_options_keyboard_fallback_witness :
    type_and_select_connection_option
        [⟨false, ["X"]⟩, ⟨true, []⟩] "Acme East" = some "Acme East" :=
  zero_options_keyboard_fallback [⟨false, ["X"]⟩, ⟨true, []⟩] "Acme East"
    (by decide)

/-! ### Lemmas about association lists -/

theorem lookup_isSome_of_mem_fst {l : List (String × String)} {a : String}
    (h : a ∈ l.map Prod.fst) : (l.lookup a).isSome := by
  induction l with
  | nil => simp at h
  | cons p t ih =>
    rcases List.mem_cons.mp h with heq | hmem
    · cases p with
      | mk k v => simp only [List.lookup]; simp at heq; simp [heq]
    · cases p with
      | mk k v =>
        simp only [List.lookup]
        cases hk : (a == k) with
        | true => simp
        | false => simpa using ih hmem

theorem lookup_append_of_none {l l2 : List (String × String)} {a : String}
    (h : l.lookup a = none) : (l ++ l2).lookup a = l2.lookup a := by
  induction l with
  | nil => simp
  | cons p t ih =>
    cases p with
    | mk k v =>
      simp only [List.lookup, List.cons_append] at *
      cases hk : (a == k) with
      | true => simp [hk] at h
      | false => simp only [hk] at h ⊢; exact ih h

theorem lookup_append_of_some {l l2 : List (String × String)} {a : String}
    {v : String} (h : l.lookup a = some v) : (l ++ l2).lookup a = some v := by
  induction l with
  | nil => simp at h
  | cons p t ih =>
    cases p with
    | mk k w =>
      simp only [List.lookup, List.cons_append] at *
      cases hk : (a == k) with
      | true => simpa [hk] using h
      | false => simp only [hk] at h ⊢; exact ih h

/-- The cleanup loop changes nothing once every listed key is present. -/
theorem fillCleanup_noop (trip : List (String × String)) :
    ∀ (ks : List String) (l : List (String × String)),
      (∀ k ∈ ks, (l.lookup k).isSome) →
      ks.foldl
        (fun a k =>
          if (a.lookup k).isSome then a else a ++ [(k, pyDictGet trip k "N/A")])
        l = l := by
  intro ks
  induction ks with
  | nil => intro l _; rfl
  | cons k kt ih =>
    intro l h
    have hk : (l.lookup k).isSome := h k (List.mem_cons_self _ _)
    simp only [List.foldl_cons, hk, if_pos]
    exact ih l (fun k2 hk2 => h k2 (List.mem_cons_of_mem _ hk2))

/-- Invariant of the per-field loop: a successful run extends the
accumulator with exactly one entry per remaining field, in order, with
empty-valued fields recorded as "N/A (Skipped)". -/
theorem fillFieldsLoop_spec (env : PageEnv) (trip : List (String × String)) :
    ∀ (fs : List String) (acc m : List (String × String)),
      fillFieldsLoop env trip fs acc = some m →
      ∃ ext, m = fillCleanup trip (acc ++ ext) ∧ ext.map Prod.fst = fs ∧
        (∀ f ∈ fs, pyDictGet trip f "" = "" →
          ext.lookup f = some "N/A (Skipped)") := by
  intro fs
  induction fs with
  | nil =>
    intro acc m h
    refine ⟨[], ?_, rfl, by simp⟩
    simp only [fillFieldsLoop] at h
    simp [← Option.some.injEq, ← h]
  | cons f rest ih =>
    intro acc m h
    simp only [fillFieldsLoop] at h
    by_cases hv : pyDictGet trip f "" = ""
    · rw [if_pos hv] at h
      obtain ⟨ext, hm, hfst, hlk⟩ := ih _ _ h
      refine ⟨(f, "N/A (Skipped)") :: ext, ?_, by simp [hfst], ?_⟩
      · rw [hm]; simp
      · intro f2 hf2 hf2v
        rcases List.mem_cons.mp hf2 with heq | hmem
        · subst heq; simp [List.lookup]
        · simp only [List.lookup]
          cases hk : (f2 == f) with
          | true => simp
          | false => simpa using hlk f2 hmem hf2v
    · rw [if_neg hv] at h
      by_cases hp : env.fieldPresent f = false
      · rw [if_pos hp] at h; exact absurd h (by simp)
      · rw [if_neg hp] at h
        have step : ∀ v : String,
            fillFieldsLoop env trip rest (acc ++ [(f, v)]) = some m →
            ∃ ext, m = fillCleanup trip (acc ++ ext) ∧
              ext.map Prod.fst = f :: rest ∧
              (∀ f2 ∈ f :: rest, pyDictGet trip f2 "" = "" →
                ext.lookup f2 = some "N/A (Skipped)") := by
          intro v hrec
          obtain ⟨ext, hm, hfst, hlk⟩ := ih _ _ hrec
          refine ⟨(f, v) :: ext, ?_, by simp [hfst], ?_⟩
          · rw [hm]; simp
          · intro f2 hf2 hf2v
            rcases List.mem_cons.mp hf2 with heq | hmem
            · subst heq; exact absurd hf2v hv
            · simp only [List.lookup]
              cases hk : (f2 == f) with
              | true =>
                have : f2 = f := by simpa using hk
                exact absurd (this ▸ hf2v) hv
              | false => simpa using hlk f2 hmem hf2v
        by_cases hc : CONNECTION_FIELDS.contains f
        · rw [if_pos hc] at h
          cases hcf : fill_connection_field env f (pyDictGet trip f "") with
          | none => rw [hcf] at h; exact absurd h (by simp)
          | some t => rw [hcf] at h; exact step t h
        · rw [if_neg hc] at h
          by_cases hstd : env.stdFillOk f
          · rw [if_pos hstd] at h; exact step _ h
          · rw [if_neg hstd] at h; exact absurd h (by simp)

/-- C7: whenever `fill_all_fields_for_trip` does not abort, the returned
mapping has exactly one entry for each of the nine logical fields, in
order, and fields whose input value is empty are recorded as
"N/A (Skipped)" rather than as failures; on abort the function returns
`none`. -/
theorem fill_outcome_complete (env : PageEnv) (trip m : List (String × String))
    (h : fill_all_fields_for_trip env trip = some m) :
    m.map Prod.fst = EXCEL_COLUMNS ∧
    (∀ f ∈ EXCEL_COLUMNS, pyDictGet trip f "" = "" →
      m.lookup f = some "N/A (Skipped)") := by
  obtain ⟨ext, hm, hfst, hlk⟩ := fillFieldsLoop_spec env trip EXCEL_COLUMNS [] m h
  have hnoop : fillCleanup trip ([] ++ ext) = ext := by
    simp only [List.nil_append]
    exact fillCleanup_noop trip EXCEL_COLUMNS ext
      (fun k hk => lookup_isSome_of_mem_fst (by rw [hfst]; exact hk))
  rw [hnoop] at hm
  subst hm
  exact ⟨hfst, hlk⟩

/-- C7 witness: a trip with an empty Destination yields a mapping with one
entry per field and Destination recorded as "N/A (Skipped)". -/
theorem fill_outcome_complete_witness :
    (sampleTripNoDest.map Prod.fst = EXCEL_COLUMNS ∧
      (∀ f ∈ EXCEL_COLUMNS, pyDictGet sampleTripNoDestInput f "" = "" →
        sampleTripNoDest.lookup f = some "N/A (Skipped)")) :=
  fill_outcome_complete happyEnv sampleTripNoDestInput sampleTripNoDest
    (by decide)

/-- C6: whenever the submit control is found and clicked without throwing,
`click_submit_and_wait_success` returns normally even though the success
indicator is absent, and the trip reaching that point is logged SUCCESS and
reported as succeeded — success-indicator absence never by itself marks the
trip FAILED. -/
theorem submit_success_without_indicator (env : PageEnv)
    (trip : List (String × String)) (ts : String) (isLast : Bool)
    (m : List (String × String))
    (hb : env.submitButtonFound = true) (hc : env.submitClickOk = true)
    (hsi : env.successIndicator = false)
    (hp : env.plateInMain = true)
    (hf : fill_all_fields_for_trip env trip = some m) :
    click_submit_and_wait_success env = .ok () ∧
    (fill_and_submit_trip env trip ts isLast).result = .ok true ∧
    ∃ r, (fill_and_submit_trip env trip ts isLast).rows = [r] ∧
      r.get? 1 = some "SUCCESS" := by
  have hsub : click_submit_and_wait_success env = .ok () := by
    simp [click_submit_and_wait_success, hb, hc]
  refine ⟨hsub, ?_⟩
  have hform : find_form_context env = .ok true := by
    simp [find_form_context, hp]
  have hbody : ∃ evs, tripBody env trip isLast = (true, some m, "", evs) := by
    simp only [tripBody, hform, hf, hsub]
    cases isLast with
    | true => exact ⟨[], rfl⟩
    | false =>
      cases hr : click_reload_form_button env with
      | true => simp
      | false => simp
  obtain ⟨evs, hbody⟩ := hbody
  simp only [fill_and_submit_trip, hbody, log_submission]
  exact ⟨trivial, _, rfl, rfl⟩

/-- C6 witness: on `happyEnv` — where the success indicator is absent
(`successIndicator := false`) — the trip is reported and logged SUCCESS. -/
theorem submit_success_without_indicator_witness :
    click_submit_and_wait_success happyEnv = .ok () ∧
    (fill_and_submit_trip happyEnv sampleTrip "t0" true).result = .ok true ∧
    ∃ r, (fill_and_submit_trip happyEnv sampleTrip "t0" true).rows = [r] ∧
      r.get? 1 = some "SUCCESS" :=
  submit_success_without_indicator happyEnv sampleTrip "t0" true sampleTrip
    rfl rfl rfl rfl (by decide)

/-- Per-trip reload accounting: `click_reload_form_button` is invoked
exactly when the trip succeeded and is not the last one. -/
theorem count_reload_step (env : PageEnv) (trip : List (String × String))
    (ts : String) (isLast : Bool) :
    (fill_and_submit_trip env trip ts isLast).events.count Event.reloadCall
      = if (fill_and_submit_trip env trip ts isLast).result = Except.ok true
            ∧ isLast = false
        then 1 else 0 := by
  unfold fill_and_submit_trip tripBody
  cases hform : find_form_context env with
  | error e => simp [log_submission]
  | ok b =>
    cases b with
    | false => simp [log_submission]
    | true =>
      cases hf : fill_all_fields_for_trip env trip with
      | none => simp [log_submission]
      | some sel =>
        cases hs : click_submit_and_wait_success env with
        | error e => simp [log_submission]
        | ok u =>
          cases isLast with
          | true => simp [log_submission]
          | false =>
            cases hr : click_reload_form_button env with
            | true => simp [log_submission]
            | false => simp [log_submission]

/-- The returned boolean / escaping exception does not depend on the
`is_last_trip` flag (which only controls the reset step). -/
theorem result_indep_isLast (env : PageEnv) (trip : List (String × String))
    (ts : String) (l l2 : Bool) :
    (fill_and_submit_trip env trip ts l).result
      = (fill_and_submit_trip env trip ts l2).result := by
  unfold fill_and_submit_trip tripBody
  cases hform : find_form_context env with
  | error e => rfl
  | ok b =>
    cases b with
    | false => rfl
    | true =>
      cases hf : fill_all_fields_for_trip env trip with
      | none => rfl
      | some sel =>
        cases hs : click_submit_and_wait_success env with
        | error e => rfl
        | ok u =>
          cases l <;> cases l2 <;>
            cases hr : click_reload_form_button env <;> rfl

/-- C8 amended: `click_reload_form_button` is invoked after a trip exactly
when that trip succeeded and is not the final one (a failed trip instead
navigates to the entry URL in the error handler, even when final); hence
over a fully successful batch its call count is N−1 (and 0 for N=1). -/
theorem reload_invocation_policy :
    (∀ (env : PageEnv) (trip : List (String × String)) (ts : String)
        (isLast : Bool),
      (fill_and_submit_trip env trip ts isLast).events.count Event.reloadCall
        = if (fill_and_submit_trip env trip ts isLast).result = Except.ok true
              ∧ isLast = false
          then 1 else 0) ∧
    (∀ (ts : String) (ps : List (PageEnv × List (String × String))),
      ps ≠ [] →
      (∀ p ∈ ps,
        (fill_and_submit_trip p.1 p.2 ts true).result = Except.ok true) →
      (runLoop ts ps).events.count Event.reloadCall = ps.length - 1) := by
  refine ⟨count_reload_step, ?_⟩
  intro ts ps
  induction ps with
  | nil => intro h; exact absurd rfl h
  | cons p rest ih =>
    intro _ hall
    have hres : (fill_and_submit_trip p.1 p.2 ts rest.isEmpty).result
        = Except.ok true := by
      rw [result_indep_isLast p.1 p.2 ts rest.isEmpty true]
      exact hall p (List.mem_cons_self _ _)
    have hcnt := count_reload_step p.1 p.2 ts rest.isEmpty
    rw [hres] at hcnt
    simp only [runLoop, hres]
    rw [List.count_append]
    cases rest with
    | nil =>
      simp only [List.isEmpty_nil] at hcnt
      simp [runLoop, hcnt]
    | cons q qs =>
      simp at hcnt
      simp only [List.isEmpty_cons]
      rw [hcnt, ih (by simp)
        (fun r hr => hall r (List.mem_cons_of_mem _ hr))]
      simp only [List.length_cons]
      omega

/-- C8 counterexample: in a batch of two trips that both fail at the submit
stage, `click_reload_form_button` is never invoked (the claim demands
N−1 = 1 invocations of the reset step after non-final trips), while the
full-page navigation reset runs after every failed trip — including the
final one, which the claim forbids. -/
theorem reload_after_failure_counterexample :
    (runLoop "t0" [(envSubmitFail, sampleTrip), (envSubmitFail, sampleTrip)]
        ).events.count Event.reloadCall = 0 ∧
    (runLoop "t0" [(envSubmitFail, sampleTrip), (envSubmitFail, sampleTrip)]
        ).events.count Event.navigate = 2 ∧
    (runLoop "t0" [(envSubmitFail, sampleTrip), (envSubmitFail, sampleTrip)]
        ).processed = 2 ∧
    (0 : Nat) ≠
      [(envSubmitFail, sampleTrip), (envSubmitFail, sampleTrip)].length - 1 := by
  decide

/-- C8 witness: a fully successful batch of two trips invokes the reload
step exactly once (N−1). -/
theorem reload_invocation_policy_witness :
    (runLoop "t0" [(happyEnv, sampleTrip), (happyEnv, sampleTrip)]
        ).events.count Event.reloadCall
      = [(happyEnv, sampleTrip), (happyEnv, sampleTrip)].length - 1 :=
  reload_invocation_policy.2 "t0" [(happyEnv, sampleTrip), (happyEnv, sampleTrip)]
    (by simp) (by decide)

/-- Column index of the "(Actual Selected)" ledger cell for a connection
field (cargui19.py lines 103-122: row positions 4, 6 and 14). -/
def selIdx (k : String) : Nat :=
  if k = "Department" then 4 else if k = "Plate" then 6 else 14

theorem pyDictGet_none {sel : List (String × String)} {k d : String}
    (h : sel.lookup k = none) : pyDictGet sel k d = d := by
  unfold pyDictGet; rw [h]

theorem pyDictGet_append_single_self {sel : List (String × String)}
    {k v d : String} (h : sel.lookup k = none) :
    pyDictGet (sel ++ [(k, v)]) k d = v := by
  unfold pyDictGet
  rw [lookup_append_of_none h]
  simp [List.lookup]

theorem pyDictGet_append_single_other {sel : List (String × String)}
    {k k2 v d : String} (hne : k2 ≠ k) :
    pyDictGet (sel ++ [(k, v)]) k2 d = pyDictGet sel k2 d := by
  unfold pyDictGet
  cases hl : sel.lookup k2 with
  | some w => rw [lookup_append_of_some hl]
  | none =>
    rw [lookup_append_of_none hl]
    have hb : (k2 == k) = false := by simp [hne]
    simp [List.lookup, hb, hl]

/-- C9: when the selected-values mapping has no entry for a connection
field, the ledger's "(Actual Selected)" cell for that field defaults to the
Excel input value, so the row is identical to one produced by a mapping
that explicitly recorded the Excel value — the two cases cannot be
distinguished from the ledger. -/
theorem ledger_selected_defaults_to_input (excel sel : List (String × String))
    (status err ts k : String)
    (hk : k = "Department" ∨ k = "Plate" ∨ k = "Driver")
    (h : sel.lookup k = none) :
    log_submission excel (some (sel ++ [(k, pyDictGet excel k "N/A")]))
        status err ts
      = log_submission excel (some sel) status err ts ∧
    (∀ r, log_submission excel (some sel) status err ts = Except.ok r →
      r.get? (selIdx k) = some (pyDictGet excel k "N/A")) := by
  rcases hk with hk | hk | hk <;> subst hk
  · constructor
    · simp only [log_submission, Except.ok.injEq]
      rw [pyDictGet_append_single_self h,
        pyDictGet_append_single_other (by decide : "Plate" ≠ "Department"),
        pyDictGet_append_single_other (by decide : "Driver" ≠ "Department"),
        pyDictGet_none h]
    · intro r hr
      simp only [log_submission, Except.ok.injEq] at hr
      subst hr
      simp [selIdx, pyDictGet_none h]
  · constructor
    · simp only [log_submission, Except.ok.injEq]
      rw [pyDictGet_append_single_self h,
        pyDictGet_append_single_other (by decide : "Department" ≠ "Plate"),
        pyDictGet_append_single_other (by decide : "Driver" ≠ "Plate"),
        pyDictGet_none h]
    · intro r hr
      simp only [log_submission, Except.ok.injEq] at hr
      subst hr
      simp [selIdx, pyDictGet_none h]
  · constructor
    · simp only [log_submission, Except.ok.injEq]
      rw [pyDictGet_append_single_self h,
        pyDictGet_append_single_other (by decide : "Department" ≠ "Driver"),
        pyDictGet_append_single_other (by decide : "Plate" ≠ "Driver"),
        pyDictGet_none h]
    · intro r hr
      simp only [log_submission, Except.ok.injEq] at hr
      subst hr
      simp [selIdx, pyDictGet_none h]

/-- C9 witness: with a selected-values mapping that lacks a Driver entry,
the Driver "(Actual Selected)" ledger cell equals the Excel input "Anka",
and the row equals the one for a mapping that recorded "Anka" explicitly. -/
theorem ledger_selected_defaults_to_input_witness :
    log_submission sampleTrip
        (some ([("Department", "IT")] ++ [("Driver", pyDictGet sampleTrip "Driver" "N/A")]))
        "SUCCESS" "" "t0"
      = log_submission sampleTrip (some [("Department", "IT")]) "SUCCESS" "" "t0" ∧
    (∀ r, log_submission sampleTrip (some [("Department", "IT")]) "SUCCESS" "" "t0"
        = Except.ok r →
      r.get? (selIdx "Driver") = some (pyDictGet sampleTrip "Driver" "N/A")) :=
  ledger_selected_defaults_to_input sampleTrip [("Department", "IT")]
    "SUCCESS" "" "t0" "Driver" (Or.inr (Or.inr rfl)) (by decide)

/-- C10: `load_and_clean_data` raises only for a missing file, an unreadable
file, or missing required columns; on success it yields one record per input
row, and a Date cell whose value does not parse as a date is silently
coerced to the empty string while the record is still yielded. -/
theorem load_clean_coerces_bad_dates (parse : String → Option String)
    (f : RawFile) :
    (∀ e, load_and_clean_data parse f = .error e →
      f.fileExists = false ∨ f.readable = false ∨
        (e = .missingColumns (missingCols f) ∧ missingCols f ≠ [])) ∧
    (∀ recs, load_and_clean_data parse f = .ok recs →
      recs.length = f.rows.length) ∧
    (∀ recs i row j s, load_and_clean_data parse f = .ok recs →
      f.rows.get? i = some row → (renamedCols f).get? j = some "Date" →
      row.get? j = some (some s) → parse s = none →
      ∃ r, recs.get? i = some r ∧ r.get? j = some ("Date", "")) := by
  unfold load_and_clean_data
  split_ifs with h1 h2 h3
  · refine ⟨fun e _ => Or.inl h1, fun recs h => ?_,
      fun recs i row j s h _ _ _ _ => ?_⟩ <;>
      exact (by simpa using h : False).elim
  · refine ⟨fun e _ => Or.inr (Or.inl h2), fun recs h => ?_,
      fun recs i row j s h _ _ _ _ => ?_⟩ <;>
      exact (by simpa using h : False).elim
  · refine ⟨fun e he => Or.inr (Or.inr ⟨?_, h3⟩), fun recs h => ?_,
      fun recs i row j s h _ _ _ _ => ?_⟩
    · injection he with he
      exact he.symm
    · exact (by simpa using h : False).elim
    · exact (by simpa using h : False).elim
  · refine ⟨fun e he => (by simpa using he : False).elim,
      fun recs h => ?_, ?_⟩
    · injection h with h
      rw [← h, List.length_map]
    · intro recs i row j s h hrow hcol hcell hparse
      injection h with h
      subst h
      refine ⟨((renamedCols f).zip row).map
        (fun p => (p.1, cleanCell parse p.1 p.2)), ?_, ?_⟩
      · rw [List.get?_map, hrow]
        rfl
      · rw [List.get?_map]
        have hz : ((renamedCols f).zip row).get? j = some ("Date", some s) :=
          (List.get?_zip_eq_some _ _ _ _).mpr ⟨hcol, hcell⟩
        rw [hz]
        simp [cleanCell, hparse]

/-- A date parser that accepts nothing, for the C10 witness. -/
def parse0 : String → Option String := fun _ => none

/-- An input file with all required columns and one row whose Date cell is
unparseable. -/
def file0 : RawFile :=
  ⟨true, true, EXCEL_COLUMNS,
   [[some "IT", some "ABC 123", some "garbage", some "8:00", some "100",
     some "9:00", some "120", some "Campus", some "Anka"]]⟩

/-- The records `load_and_clean_data parse0 file0` yields. -/
def recs0 : List (List (String × String)) :=
  [[("Department", "IT"), ("Plate", "ABC 123"), ("Date", ""),
    ("Start_Time", "8:00"), ("Start_Mileage", "100"), ("End_Time", "9:00"),
    ("End_Mileage", "120"), ("Destination", "Campus"), ("Driver", "Anka")]]

/-- C10 witness: the malformed date "garbage" is coerced to the empty
string and its record is still yielded. -/
theorem load_clean_coerces_bad_dates_witness :
    ∃ r, recs0.get? 0 = some r ∧ r.get? 2 = some ("Date", "") :=
  (load_clean_coerces_bad_dates parse0 file0).2.2 recs0 0
    [some "IT", some "ABC 123", some "garbage", some "8:00", some "100",
     some "9:00", some "120", some "Campus", some "Anka"]
    2 "garbage" (by decide) (by decide) (by decide) (by decide) (by decide)

/-- C1: when a trip fails at the fill stage (`fill_all_fields_for_trip`
returns `None`), the `finally` block calls `log_submission` with
`trip_data_selected = None`, whose `.get` raises AttributeError; the
exception escapes `fill_and_submit_trip` into `run_automation`'s outer
handler, so the following trips are never processed (here: a batch of two
trips stops after trip 1). -/
theorem fill_failure_escapes_pipeline :
    (fill_and_submit_trip envFillFail sampleTrip "t0" false).result
      = Except.error (PyErr.attributeError "NoneType object has no attribute get") ∧
    fill_all_fields_for_trip envFillFail sampleTrip = none ∧
    (runLoop "t0" [(envFillFail, sampleTrip), (happyEnv, sampleTrip)]).processed
      = 1 ∧
    (runLoop "t0" [(envFillFail, sampleTrip), (happyEnv, sampleTrip)]).errored
      = true := by
  decide

/-- C2: the same fill-stage failure makes `fill_and_submit_trip` append
zero ledger rows instead of exactly one (the crash happens inside
`log_submission` before `writerow`), while a successful trip appends one. -/
theorem ledger_row_missing_on_fill_failure :
    (fill_and_submit_trip envFillFail sampleTrip "t0" false).rows.length = 0 ∧
    (fill_and_submit_trip happyEnv sampleTrip "t0" true).rows.length = 1 ∧
    (run_automation none "t0" [(envFillFail, sampleTrip), (happyEnv, sampleTrip)]
        ).ledger = [OUTPUT_HEADER] := by
  decide

/-- C5: on a page whose plate field lives only in an iframe,
`find_form_context` raises NameError (line 457 iterates the undefined name
`frames` instead of `iframes`) rather than searching the iframes and
returning a located-form signal; the trip is marked FAILED by the unrelated
error. -/
theorem find_form_context_nameError :
    envIframe.plateInMain = false ∧
    envIframe.iframePlate = [true] ∧
    find_form_context envIframe = Except.error (PyErr.nameError "frames") ∧
    (fill_and_submit_trip envIframe sampleTrip "t0" true).result
      = Except.ok false ∧
    ((fill_and_submit_trip envIframe sampleTrip "t0" true).rows.head?.bind
        (fun r => r.get? 1)) = some "FAILED" := by
  decide

end CarLog
